import Mathlib

/-!
Verification development for the sandbox lifecycle measurement tool
(`src/main.py`) and the companion deployment benchmark (`src/monitor.py`).

The Python code is shallowly embedded: durations and wall-clock readings are
modelled as rationals, external effects (the Koyeb control-plane client, the
health probe, `time.time()`/`datetime.now()` readings) are supplied as
explicit input streams, and Python exceptions raised by external calls are
modelled with `Except`.  The unbounded `while` loops of the poller are run on
explicit fuel: a `none` result means the loop in question never exited.
-/

/-- A metric sample published to the Prometheus histogram `prom_metric`
via `prom_metric.labels(operation=..., category=..., region=...).observe(...)`
(`src/main.py`, lines 15-37 and 56). -/
structure Sample where
  operation : String
  category : String
  region : String
  value : ℚ
deriving DecidableEq, Repr

/-- One entry of `TimingTracker.operations`: the dict appended by
`TimingTracker.record` (`src/main.py`, lines 48-53) holding `name`,
`duration`, `category` and the `datetime.now()` timestamp. -/
structure Operation where
  name : String
  duration : ℚ
  category : String
  timestamp : ℚ
deriving DecidableEq, Repr

/-- State of a `TimingTracker` (`src/main.py`, lines 39-44): the ordered
`operations` list and the `categories` defaultdict mapping a category to the
list of durations recorded under it (any unseen key reads as `[]`). -/
structure TimingTracker where
  operations : List Operation
  categories : String → List ℚ

/-- A freshly constructed `TimingTracker()` (`src/main.py`, lines 41-43). -/
def emptyTracker : TimingTracker :=
  ⟨[], fun _ => []⟩

instance : Inhabited TimingTracker :=
  ⟨emptyTracker⟩

/-- Model of `TimingTracker.record` (`src/main.py`, lines 46-56): appends the
operation dict, appends the duration to `categories[category]`, and
publishes one labelled sample to the Prometheus histogram.  `now` is the
`datetime.now()` reading.  The returned pair is the updated tracker state
together with the sample pushed to the metrics registry. -/
def TimingTracker.record (t : TimingTracker) (name : String) (duration : ℚ)
    (category : String) (region : String) (now : ℚ) : TimingTracker × Sample :=
  (⟨t.operations ++ [⟨name, duration, category, now⟩],
    fun c => if c = category then t.categories c ++ [duration] else t.categories c⟩,
   ⟨name, category, region, duration⟩)

/-- Model of `TimingTracker.get_total_time` (`src/main.py`, lines 62-64): the sum of
all recorded durations. -/
def TimingTracker.get_total_time (t : TimingTracker) : ℚ :=
  (t.operations.map fun op => op.duration).sum

/-- Model of `TimingTracker.get_category_total` (`src/main.py`, lines 66-68): the sum
of the durations stored under one category of the defaultdict. -/
def TimingTracker.get_category_total (t : TimingTracker) (category : String) : ℚ :=
  (t.categories category).sum

/-- Model of `TimingTracker.record_total_time` (`src/main.py`, lines 58-60): reads
`get_total_time()` and publishes it to the Prometheus histogram with labels
`operation="total"`, `category="total"` and the given region.  The method
does not touch `self.operations` or `self.categories`, so the tracker
component of the result is the input state. -/
def TimingTracker.record_total_time (t : TimingTracker) (region : String) :
    TimingTracker × Sample :=
  (t, ⟨"total", "total", region, t.get_total_time⟩)

/-- Python `int()` applied to a rational: truncation toward zero, as in
`bar_length = int(percentage / 2)` (`src/main.py`, line 87). -/
def pyTrunc (q : ℚ) : ℤ :=
  if 0 ≤ q then ⌊q⌋ else ⌈q⌉

/-- One line printed by `TimingTracker.print_recap` (`src/main.py`,
lines 70-95), abstracting the exact text formatting: the banner/title block,
the "No operations recorded" message, one per-operation line (name, duration,
percentage of the total, bar length), and the closing TOTAL line. -/
inductive RecapLine where
  | header : RecapLine
  | noOps : RecapLine
  | opLine (name : String) (duration : ℚ) (percentage : ℚ) (barLen : ℤ) : RecapLine
  | totalLine (total : ℚ) : RecapLine
deriving DecidableEq, Repr

/-- Model of `TimingTracker.print_recap` (`src/main.py`, lines 70-95).  The first
component is the sequence of printed lines; the second component lists the
denominator of every division the code actually executes, so that absence of
division by zero is a provable statement: the percentage division by
`total_time` runs only under the `total_time > 0` guard of line 86, and the
division by two of line 87 runs once per printed operation line. -/
def TimingTracker.print_recap (t : TimingTracker) : List RecapLine × List ℚ :=
  if t.operations.isEmpty then
    ([RecapLine.header, RecapLine.noOps], [])
  else
    let total := t.get_total_time
    (RecapLine.header ::
        (t.operations.map fun op =>
          let percentage : ℚ := if 0 < total then op.duration / total * 100 else 0
          RecapLine.opLine op.name op.duration percentage (pyTrunc (percentage / 2)))
        ++ [RecapLine.totalLine total],
     (t.operations.map fun _ => (if 0 < total then [total] else []) ++ [(2 : ℚ)]).flatten)

/-- Arguments of one `TimingTracker.record` call (with the `datetime.now()`
reading `now` the call would observe). -/
structure RecordCall where
  name : String
  duration : ℚ
  category : String
  region : String
  now : ℚ
deriving DecidableEq, Repr

/-- The sample a `record` call pushes to the metrics registry. -/
def sampleOfCall (c : RecordCall) : Sample :=
  ⟨c.name, c.category, c.region, c.duration⟩

/-- The operations-log entry a `record` call appends. -/
def opOfCall (c : RecordCall) : Operation :=
  ⟨c.name, c.duration, c.category, c.now⟩

/-- Replay a sequence of `record` calls against a tracker state, also
accumulating the samples published to the metrics registry. -/
def runRecords : TimingTracker → List Sample → List RecordCall → TimingTracker × List Sample
  | t, pub, [] => (t, pub)
  | t, pub, c :: cs =>
    let r := t.record c.name c.duration c.category c.region c.now
    runRecords r.1 (pub ++ [r.2]) cs

/-- Model of `get_instance_status` (`src/main.py`, lines 97-101): the reply of
one `list_instances` call is abstracted as the list of `str(instance.status)`
values; an empty reply yields the empty string, otherwise the status of the
first instance is returned. -/
def get_instance_status (instances : List String) : String :=
  match instances with
  | [] => ""
  | s :: _ => s

/-- Exit predicate of the instance-discovery loop (`src/main.py`, line 138):
the observed status is non-empty. -/
def discoveryExit (st : String) : Bool :=
  !(st == "")

/-- Exit predicate of the instance-allocation loop (`src/main.py`,
line 148): the observed status is one of the three listed states. -/
def allocExit (st : String) : Bool :=
  st == "InstanceStatus.STARTING" || st == "InstanceStatus.ALLOCATING"
    || st == "InstanceStatus.HEALTHY"

/-- Exit predicate of the instance-starting loop (`src/main.py`, line 158). -/
def startExit (st : String) : Bool :=
  st == "InstanceStatus.STARTING" || st == "InstanceStatus.HEALTHY"

/-- Python truthiness of an optional string, as tested by
`if not api_token` (`src/main.py`, line 109) on the result of `os.getenv`:
both `None` and the empty string are falsy. -/
def pyTruthy : Option String → Bool
  | none => false
  | some s => !(s == "")

/-- External world of one `main(region)` call (`src/main.py`, lines 103-195).
`clock` gives the successive readings consumed by `time.time()` and
`datetime.now()`; `listInstances` gives the reply of the n-th
`list_instances` call of the cycle (`Except.error` models a raised
exception); `isHealthy` gives the result of the n-th `sandbox.is_healthy()`
call; `createOk` and `deleteOk` say whether `Sandbox.create` and
`sandbox.delete()` return normally or raise. -/
structure Env where
  apiToken : Option String
  clock : ℕ → ℚ
  createOk : Bool
  listInstances : ℕ → Except Unit (List String)
  isHealthy : ℕ → Except Unit Bool
  deleteOk : Bool

/-- Result of the n-th `get_instance_status(instances_api, sandbox.id)` call
of the cycle. -/
def Env.status (env : Env) (n : ℕ) : Except Unit String :=
  (env.listInstances n).map get_instance_status

/-- Fuel-bounded model of the status-polling `while` loops of `main`
(`src/main.py`, lines 138-141, 148-151 and 158-161): while the exit
predicate `p` fails on the current status `cur`, fetch the next status from
the stream `s` (index `k` is the number of `get_instance_status` calls made
so far in the cycle).  A raised exception propagates as `Except.error`;
`Except.ok none` means the fuel ran out, i.e. the loop never exited within
the allotted number of iterations. -/
def waitLoop (s : ℕ → Except Unit String) (p : String → Bool) :
    ℕ → String → ℕ → Except Unit (Option (String × ℕ))
  | 0, cur, k => if p cur then Except.ok (some (cur, k)) else Except.ok none
  | fuel + 1, cur, k =>
    if p cur then Except.ok (some (cur, k))
    else
      match s k with
      | Except.error e => Except.error e
      | Except.ok st => waitLoop s p fuel st (k + 1)

/-- Fuel-bounded model of the health-check `while` loop of `main`
(`src/main.py`, lines 169-172): starting from `is_healthy = False`, call
`sandbox.is_healthy()` until it returns `True`.  On exit, the returned
number is the total count of `is_healthy` calls made. -/
def healthLoop (h : ℕ → Except Unit Bool) : ℕ → ℕ → Except Unit (Option ℕ)
  | 0, _ => Except.ok none
  | fuel + 1, k =>
    match h k with
    | Except.error e => Except.error e
    | Except.ok b => if b then Except.ok (some (k + 1)) else healthLoop h fuel (k + 1)

/-- Outcome of the `try` block of `main` (`src/main.py`, lines 119-177).
`raised` carries the tracker and published samples accumulated before the
exception, whether the `sandbox` handle had been obtained, the index of the
next unread clock value, and the cumulative `get_instance_status` call count
at the end of each completed polling phase (0 for phases never reached)
together with the `is_healthy` call count.  `hang` means one of the polling
loops never exited. -/
inductive TryOut where
  | hang : TryOut
  | raised (tracker : TimingTracker) (published : List Sample) (sandbox : Bool)
      (clockIdx : ℕ) (kDisc kAlloc kStart kHealth : ℕ) : TryOut
  | finished (tracker : TimingTracker) (published : List Sample)
      (clockIdx : ℕ) (kDisc kAlloc kStart kHealth : ℕ) : TryOut

/-- Model of the `try` block of `main` (`src/main.py`, lines 119-177): the
five timed phases followed by `tracker.record_total_time(region)`.  The
clock indices follow the textual order of the `time.time()` and
`datetime.now()` calls: reading 0 is `script_start`, readings 1 and 2
bracket `Sandbox.create`, reading 3 is the first record's timestamp, and so
on; each phase consumes three readings (start, end, record timestamp). -/
def runTry (env : Env) (region : String) (fuel : ℕ) : TryOut :=
  if env.createOk then
    let r1 := emptyTracker.record "Sandbox creation" (env.clock 2 - env.clock 1)
      "setup" region (env.clock 3)
    match waitLoop env.status discoveryExit fuel "" 0 with
    | Except.error _ => TryOut.raised r1.1 [r1.2] true 5 0 0 0 0
    | Except.ok none => TryOut.hang
    | Except.ok (some (st2, k2)) =>
      let r2 := r1.1.record "instance creation" (env.clock 5 - env.clock 4)
        "setup" region (env.clock 6)
      match waitLoop env.status allocExit fuel st2 k2 with
      | Except.error _ => TryOut.raised r2.1 [r1.2, r2.2] true 8 k2 0 0 0
      | Except.ok none => TryOut.hang
      | Except.ok (some (st3, k3)) =>
        let r3 := r2.1.record "instance allocation" (env.clock 8 - env.clock 7)
          "setup" region (env.clock 9)
        match waitLoop env.status startExit fuel st3 k3 with
        | Except.error _ => TryOut.raised r3.1 [r1.2, r2.2, r3.2] true 11 k2 k3 0 0
        | Except.ok none => TryOut.hang
        | Except.ok (some (_st4, k4)) =>
          let r4 := r3.1.record "instance starting" (env.clock 11 - env.clock 10)
            "setup" region (env.clock 12)
          match healthLoop env.isHealthy fuel 0 with
          | Except.error _ => TryOut.raised r4.1 [r1.2, r2.2, r3.2, r4.2] true 14 k2 k3 k4 0
          | Except.ok none => TryOut.hang
          | Except.ok (some kh) =>
            let r5 := r4.1.record "Health check" (env.clock 14 - env.clock 13)
              "monitoring" region (env.clock 15)
            let r6 := r5.1.record_total_time region
            TryOut.finished r6.1 [r1.2, r2.2, r3.2, r4.2, r5.2, r6.2] 16 k2 k3 k4 kh
  else
    TryOut.raised emptyTracker [] false 2 0 0 0 0

/-- Tracker state and published samples at the end of a fully successful
`try` block of `main`: the five phase records followed by the
`record_total_time` publication (which leaves the tracker unchanged). -/
def cycleRecords (env : Env) (region : String) : TimingTracker × List Sample :=
  let r1 := emptyTracker.record "Sandbox creation" (env.clock 2 - env.clock 1)
    "setup" region (env.clock 3)
  let r2 := r1.1.record "instance creation" (env.clock 5 - env.clock 4)
    "setup" region (env.clock 6)
  let r3 := r2.1.record "instance allocation" (env.clock 8 - env.clock 7)
    "setup" region (env.clock 9)
  let r4 := r3.1.record "instance starting" (env.clock 11 - env.clock 10)
    "setup" region (env.clock 12)
  let r5 := r4.1.record "Health check" (env.clock 14 - env.clock 13)
    "monitoring" region (env.clock 15)
  let r6 := r5.1.record_total_time region
  (r6.1, [r1.2, r2.2, r3.2, r4.2, r5.2, r6.2])

/-- Observable outcome of one `main(region)` call.  `createCalls` and
`deleteCalls` count invocations of `Sandbox.create` and `sandbox.delete()`;
`caught` says the `except Exception` handler of line 179 ran; `escaped` says
an exception left `main` altogether (only possible when `sandbox.delete()`
itself raises inside the unprotected `finally` block, lines 183-190);
`recapShown` says `tracker.print_recap()` was reached; `output` collects the
principal status messages printed. -/
structure MainResult where
  tracker : TimingTracker
  published : List Sample
  createCalls : ℕ
  deleteCalls : ℕ
  caught : Bool
  escaped : Bool
  recapShown : Bool
  statusCallsDiscovery : ℕ
  statusCallsAlloc : ℕ
  statusCallsStart : ℕ
  healthCalls : ℕ
  output : List String
deriving Inhabited

/-- Model of the `finally` block of `main` (`src/main.py`, lines 183-195),
entered with the tracker state, published samples and flags produced by the
`try`/`except` part.  If the sandbox handle exists, `sandbox.delete()` is
called: if it returns, its duration is recorded under "cleanup" and the
recap is printed; if it raises, nothing after it runs and the exception
escapes `main`.  Without a handle the delete is skipped and the recap is
still printed. -/
def finishCycle (env : Env) (region : String) (t : TimingTracker) (pub : List Sample)
    (sandbox : Bool) (caught : Bool) (i k2 k3 k4 kh : ℕ) : MainResult :=
  if sandbox then
    if env.deleteOk then
      let r := t.record "Sandbox deletion" (env.clock (i + 1) - env.clock i)
        "cleanup" region (env.clock (i + 2))
      { tracker := r.1, published := pub ++ [r.2], createCalls := 1, deleteCalls := 1,
        caught := caught, escaped := false, recapShown := true,
        statusCallsDiscovery := k2, statusCallsAlloc := k3, statusCallsStart := k4,
        healthCalls := kh,
        output := ["Starting sandbox operations..."]
          ++ (if caught then ["✗ Error occurred"] else [])
          ++ ["✓ All operations completed"] }
    else
      { tracker := t, published := pub, createCalls := 1, deleteCalls := 1,
        caught := caught, escaped := true, recapShown := false,
        statusCallsDiscovery := k2, statusCallsAlloc := k3, statusCallsStart := k4,
        healthCalls := kh,
        output := ["Starting sandbox operations..."]
          ++ (if caught then ["✗ Error occurred"] else []) }
  else
    { tracker := t, published := pub, createCalls := 1, deleteCalls := 0,
      caught := caught, escaped := false, recapShown := true,
      statusCallsDiscovery := k2, statusCallsAlloc := k3, statusCallsStart := k4,
      healthCalls := kh,
      output := ["Starting sandbox operations..."]
        ++ (if caught then ["✗ Error occurred"] else [])
        ++ ["✓ All operations completed"] }

/-- Model of `main(region)` (`src/main.py`, lines 103-195).  A missing or
empty `KOYEB_API_TOKEN` makes `main` print the diagnostic and return before
any cycle work.  Otherwise the `try` block runs, an exception raised inside
it is caught by the `except Exception` handler (which logs it), and the
`finally` block runs in all cases.  `none` means a polling loop never
exited within the given fuel, i.e. the real program would poll forever. -/
def runMain (env : Env) (region : String) (fuel : ℕ) : Option MainResult :=
  if pyTruthy env.apiToken then
    match runTry env region fuel with
    | TryOut.hang => none
    | TryOut.raised t pub sandbox i kd ka ks kh =>
      some (finishCycle env region t pub sandbox true i kd ka ks kh)
    | TryOut.finished t pub i kd ka ks kh =>
      some (finishCycle env region t pub true false i kd ka ks kh)
  else
    some { tracker := emptyTracker, published := [], createCalls := 0, deleteCalls := 0,
           caught := false, escaped := false, recapShown := false,
           statusCallsDiscovery := 0, statusCallsAlloc := 0, statusCallsStart := 0,
           healthCalls := 0,
           output := ["Starting sandbox operations...", "Error: KOYEB_API_TOKEN not set"] }

/-- How a run of the scheduler loop ended. -/
inductive SchedEnd where
  | completed : SchedEnd
  | crashed : SchedEnd
  | hung : SchedEnd
deriving DecidableEq, Repr

/-- Model of the scheduler loop in the `__main__` block (`src/main.py`,
lines 198-208), restricted to a finite list of per-cycle environments: each
cycle runs `main` with its environment; the bare call has no surrounding
`try`, so an exception escaping `main` terminates the process.  Returns the
number of cycles that ran to completion and how the run ended. -/
def runCycles (region : String) (fuel : ℕ) : List Env → ℕ × SchedEnd
  | [] => (0, SchedEnd.completed)
  | e :: rest =>
    match runMain e region fuel with
    | none => (0, SchedEnd.hung)
    | some r =>
      if r.escaped then (0, SchedEnd.crashed)
      else
        let res := runCycles region fuel rest
        (res.1 + 1, res.2)

/-- Model of the module-level credential check of `src/monitor.py`
(lines 27-35): a missing or empty token prints a diagnostic and calls
`sys.exit(1)` before any measurement runs. -/
def monitorTokenCheck (token : Option String) : Except ℕ Unit :=
  if pyTruthy token then Except.ok () else Except.error 1

/-- Condition under which the polling loop of `measure_deployment`
(`src/monitor.py`, lines 118-128) marks the instance as allocating: the
instance list is non-empty and the first status is one of the listed
states. -/
def monitorAllocExit (instances : List String) : Bool :=
  match instances with
  | [] => false
  | s :: _ => s == "ALLOCATING" || s == "STARTING" || s == "HEALTHY"

/-- Fuel-bounded model of the readiness polling loop of `measure_deployment`
(`src/monitor.py`, lines 113-144).  Iteration `i` first checks instance
status while no allocating-time has been stored, then, once it is stored,
probes the public URL: a probe reply of 200 breaks the loop, any other
status code keeps polling, and a raised `requests.RequestException`
(`Except.error`) is swallowed by the `except` clause of line 140 and the
loop simply continues.  Returns the iteration at which allocation was first
seen and the iteration at which the loop broke. -/
def monitorLoop (inst : ℕ → List String) (probe : ℕ → Except Unit ℕ) :
    ℕ → Option ℕ → ℕ → Option (Option ℕ × ℕ)
  | 0, _, _ => none
  | fuel + 1, alloc, i =>
    let alloc2 := match alloc with
      | some a => some a
      | none => if monitorAllocExit (inst i) then some i else none
    let ready := match alloc2 with
      | none => false
      | some _ =>
        match probe i with
        | Except.error _ => false
        | Except.ok code => code == 200
    if ready then some (alloc2, i) else monitorLoop inst probe fuel alloc2 (i + 1)

/-- Scripted `list_instances` replies for concrete runs: no instance on the
first call, then an allocating, a starting and finally healthy instances. -/
def goodInstances (n : ℕ) : List String :=
  if n = 0 then []
  else if n = 1 then ["InstanceStatus.ALLOCATING"]
  else if n = 2 then ["InstanceStatus.STARTING"]
  else ["InstanceStatus.HEALTHY"]

/-- Status string observed on the n-th `get_instance_status` call under
`goodInstances`. -/
def goodStatus (n : ℕ) : String :=
  get_instance_status (goodInstances n)

/-- Scripted `is_healthy` replies: false once, then true. -/
def goodHealth (n : ℕ) : Bool :=
  decide (1 ≤ n)

/-- A fully well-behaved environment: token set, create and delete succeed,
statuses progress to healthy, the probe succeeds on its second call, and the
clock ticks one second per reading. -/
def envGood : Env :=
  { apiToken := some "token", clock := fun n => (n : ℚ), createOk := true,
    listInstances := fun n => Except.ok (goodInstances n),
    isHealthy := fun n => Except.ok (goodHealth n),
    deleteOk := true }

/-- Same environment except that `sandbox.delete()` raises. -/
def envBadDelete : Env :=
  { envGood with deleteOk := false }

/-- Same environment except that `KOYEB_API_TOKEN` is unset. -/
def envNoToken : Env :=
  { envGood with apiToken := none }

/-- Same environment except that `Sandbox.create` raises. -/
def envCreateFail : Env :=
  { envGood with createOk := false }

/-- Concrete outcome of `main` under `envGood`. -/
def mainResultGood : MainResult :=
  (runMain envGood "fra" 10).getD default

/-- Concrete outcome of `main` under `envBadDelete`. -/
def mainResultBadDelete : MainResult :=
  (runMain envBadDelete "fra" 10).getD default

/-- Concrete outcome of `main` under `envNoToken`. -/
def mainResultNoToken : MainResult :=
  (runMain envNoToken "fra" 10).getD default

/-- Concrete outcome of `main` under `envCreateFail`. -/
def mainResultCreateFail : MainResult :=
  (runMain envCreateFail "fra" 10).getD default

/-- Scripted instance stream for the monitor loop: allocation visible at
once. -/
def monInst (_ : ℕ) : List String :=
  ["STARTING"]

/-- Scripted probe stream for the monitor loop: a network error on the
first probe, then HTTP 200. -/
def monProbe (n : ℕ) : Except Unit ℕ :=
  if n = 0 then Except.error () else Except.ok 200

/-- Concrete record calls used to exercise the tracker aggregates. -/
def c1Calls : List RecordCall :=
  [⟨"Sandbox creation", 2, "setup", "fra", 3⟩,
   ⟨"Health check", 3, "monitoring", "fra", 4⟩,
   ⟨"Sandbox deletion", 1, "cleanup", "fra", 5⟩]

/-- Tracker holding one recorded operation of duration 5. -/
def trackerOne : TimingTracker :=
  (emptyTracker.record "Sandbox creation" 5 "setup" "fra" 0).1

theorem runRecords_operations (cs : List RecordCall) (t : TimingTracker) (pub : List Sample) :
    (runRecords t pub cs).1.operations = t.operations ++ cs.map opOfCall := by
  induction cs generalizing t pub with
  | nil => simp [runRecords]
  | cons c cs ih =>
    simp [runRecords, TimingTracker.record, ih, opOfCall, List.append_assoc]

theorem runRecords_categories (cs : List RecordCall) (t : TimingTracker) (pub : List Sample)
    (x : String) :
    (runRecords t pub cs).1.categories x
      = t.categories x ++ ((cs.filter fun c => c.category == x).map fun c => c.duration) := by
  induction cs generalizing t pub with
  | nil => simp [runRecords]
  | cons c cs ih =>
    rw [runRecords, ih]
    by_cases h : c.category = x
    · simp [TimingTracker.record, h, List.filter_cons, List.append_assoc]
    · have hb : (c.category == x) = false := by
        simpa using h
      simp [TimingTracker.record, List.filter_cons, hb, Ne.symm h]

theorem runRecords_published (cs : List RecordCall) (t : TimingTracker) (pub : List Sample) :
    (runRecords t pub cs).2 = pub ++ cs.map sampleOfCall := by
  induction cs generalizing t pub with
  | nil => simp [runRecords]
  | cons c cs ih =>
    simp [runRecords, TimingTracker.record, ih, sampleOfCall, List.append_assoc]

/-- C1: for every sequence of `record` calls with non-negative durations,
`get_total_time()` is the sum of all recorded durations,
`get_category_total(c)` is the sum of the durations recorded under category
`c` for every category `c` (0 for categories with no entries, in particular
on the empty tracker), so the spec invariant relating category sums to
`get_category_total` holds after every sequence of operations. -/
theorem c1_tracker_aggregates (calls : List RecordCall)
    (hpos : ∀ c ∈ calls, 0 ≤ c.duration) :
    (runRecords emptyTracker [] calls).1.get_total_time
        = (calls.map fun c => c.duration).sum
    ∧ (∀ cat, (runRecords emptyTracker [] calls).1.get_category_total cat
        = ((calls.filter fun c => c.category == cat).map fun c => c.duration).sum)
    ∧ ∀ cat, (∀ c ∈ calls, c.category ≠ cat) →
        (runRecords emptyTracker [] calls).1.get_category_total cat = 0 := by
  refine ⟨?_, ?_, ?_⟩
  · rw [TimingTracker.get_total_time, runRecords_operations]
    simp only [emptyTracker, List.nil_append, List.map_map]
    rfl
  · intro cat
    rw [TimingTracker.get_category_total, runRecords_categories]
    simp [emptyTracker]
  · intro cat hnone
    rw [TimingTracker.get_category_total, runRecords_categories]
    have hfil : calls.filter (fun c => c.category == cat) = [] := by
      rw [List.filter_eq_nil_iff]
      intro c hc
      simpa using hnone c hc
    simp [emptyTracker, hfil]

theorem c1_tracker_aggregates_witness :
    (runRecords emptyTracker [] c1Calls).1.get_total_time
        = (c1Calls.map fun c => c.duration).sum
    ∧ (∀ cat, (runRecords emptyTracker [] c1Calls).1.get_category_total cat
        = ((c1Calls.filter fun c => c.category == cat).map fun c => c.duration).sum)
    ∧ ∀ cat, (∀ c ∈ c1Calls, c.category ≠ cat) →
        (runRecords emptyTracker [] c1Calls).1.get_category_total cat = 0 :=
  c1_tracker_aggregates c1Calls (by decide)

/-- C5 (amended): `record_total_time(region)` computes `get_total_time()`
and publishes it to the metrics registry as a sample with operation
"total", category "total" and the given region label; the tracker state is
left untouched, so the aggregate does not appear as a measurement of the
tracker itself. -/
theorem c5_record_total_time_publish (t : TimingTracker) (region : String) :
    t.record_total_time region = (t, ⟨"total", "total", region, t.get_total_time⟩) :=
  rfl

theorem c5_record_total_time_publish_witness :
    trackerOne.record_total_time "fra"
      = (trackerOne, ⟨"total", "total", "fra", trackerOne.get_total_time⟩) :=
  c5_record_total_time_publish trackerOne "fra"

/-- C5 counterexample: on a tracker holding one 5-second measurement,
calling `record_total_time` leaves the tracker without any operation of
category "total" and with `get_category_total("total") = 0`, even though
`get_total_time()` is 5 — the aggregate is published to Prometheus but is
not queryable from the tracker, contrary to the claim. -/
theorem c5_total_not_a_tracker_measurement :
    (trackerOne.record_total_time "fra").1.get_category_total "total" = 0
    ∧ (trackerOne.record_total_time "fra").1.get_total_time = 5
    ∧ ((trackerOne.record_total_time "fra").1.operations.all
        fun op => !(op.category == "total")) = true := by
  refine ⟨?_, ?_, by decide⟩
  · simp [trackerOne, TimingTracker.record_total_time, TimingTracker.get_category_total,
      TimingTracker.record, emptyTracker]
  · simp [trackerOne, TimingTracker.record_total_time, TimingTracker.get_total_time,
      TimingTracker.record, emptyTracker]

/-- C6: every value passed to `record(name, d, cat, region)` appears
verbatim as the operation, category and region labels and the observed
value of the published sample, and publication is push-on-record: replaying
any call sequence appends exactly one sample per call, in call order. -/
theorem c6_record_publish_round_trip (t : TimingTracker) (pub : List Sample)
    (name : String) (d : ℚ) (cat region : String) (now : ℚ)
    (calls : List RecordCall) :
    (t.record name d cat region now).2 = ⟨name, cat, region, d⟩
    ∧ (runRecords t pub calls).2 = pub ++ calls.map sampleOfCall :=
  ⟨rfl, runRecords_published calls t pub⟩

/-- C7: a missing (or empty) `KOYEB_API_TOKEN` makes `main` print the
explicit diagnostic and return before any cycle work: no create call, no
teardown, no recorded measurement, no published sample; in
`src/monitor.py` the same condition exits the process with status 1 before
any measurement. -/
theorem c7_missing_token_no_cycle (env : Env) (region : String) (fuel : ℕ)
    (r : MainResult) (htok : pyTruthy env.apiToken = false)
    (h : runMain env region fuel = some r) :
    r.createCalls = 0 ∧ r.deleteCalls = 0 ∧ r.tracker.operations = []
    ∧ r.published = []
    ∧ "Error: KOYEB_API_TOKEN not set" ∈ r.output
    ∧ monitorTokenCheck env.apiToken = Except.error 1 := by
  rw [runMain] at h
  simp only [htok, Bool.false_eq_true, if_false, Option.some.injEq] at h
  subst h
  refine ⟨rfl, rfl, rfl, rfl, ?_, ?_⟩
  · simp
  · simp [monitorTokenCheck, htok]

theorem c7_missing_token_no_cycle_witness :
    mainResultNoToken.createCalls = 0 ∧ mainResultNoToken.deleteCalls = 0
    ∧ mainResultNoToken.tracker.operations = []
    ∧ mainResultNoToken.published = []
    ∧ "Error: KOYEB_API_TOKEN not set" ∈ mainResultNoToken.output
    ∧ monitorTokenCheck envNoToken.apiToken = Except.error 1 :=
  c7_missing_token_no_cycle envNoToken "fra" 10 mainResultNoToken rfl rfl

/-- C9: `print_recap` on an empty tracker prints the explicit
"no operations" message and performs no division at all, and on every
tracker state each division it performs has a positive denominator (the
percentage division runs only under the `total_time > 0` guard), so it
never divides by zero even when the recorded total is 0. -/
theorem c9_recap_never_divides_by_zero (t : TimingTracker) :
    emptyTracker.print_recap = ([RecapLine.header, RecapLine.noOps], [])
    ∧ RecapLine.noOps ∈ emptyTracker.print_recap.1
    ∧ (t.print_recap.2.all fun q => decide (0 < q)) = true := by
  refine ⟨rfl, by simp [TimingTracker.print_recap, emptyTracker], ?_⟩
  rw [List.all_eq_true]
  intro q hq
  rw [decide_eq_true_eq]
  by_cases he : t.operations.isEmpty
  · rw [TimingTracker.print_recap] at hq
    simp [he] at hq
  · rw [TimingTracker.print_recap] at hq
    simp only [he, if_false, Bool.false_eq_true] at hq
    rw [List.mem_flatten] at hq
    obtain ⟨l, hl, hql⟩ := hq
    rw [List.mem_map] at hl
    obtain ⟨op, _, rfl⟩ := hl
    by_cases ht : 0 < t.get_total_time
    · simp only [ht, if_true] at hql
      rcases List.mem_append.1 hql with hq1 | hq2
      · rw [List.mem_singleton] at hq1
        exact hq1 ▸ ht
      · rw [List.mem_singleton] at hq2
        rw [hq2]
        norm_num
    · simp only [ht, if_false] at hql
      rw [List.nil_append, List.mem_singleton] at hql
      rw [hql]
      norm_num

/-- C10: two `record` calls differing only in the region argument produce
identical tracker states — the appended entry stores only name, duration,
category and timestamp — so `get_total_time`, every `get_category_total`
and the recap output are independent of region; the region argument only
shows up in the region label of the published sample. -/
theorem c10_region_affects_only_labels (t : TimingTracker) (name : String)
    (d : ℚ) (cat r1 r2 : String) (now : ℚ) :
    (t.record name d cat r1 now).1 = (t.record name d cat r2 now).1
    ∧ (t.record name d cat r1 now).1.get_total_time
        = (t.record name d cat r2 now).1.get_total_time
    ∧ (∀ c, (t.record name d cat r1 now).1.get_category_total c
        = (t.record name d cat r2 now).1.get_category_total c)
    ∧ (t.record name d cat r1 now).1.print_recap
        = (t.record name d cat r2 now).1.print_recap
    ∧ (t.record name d cat r1 now).2 = ⟨name, cat, r1, d⟩ :=
  ⟨rfl, rfl, fun _ => rfl, rfl, rfl⟩

theorem waitLoop_ok_some (s : ℕ → Except Unit String) (p : String → Bool) :
    ∀ (fuel : ℕ) (cur : String) (k : ℕ) (st : String) (kk : ℕ),
      waitLoop s p fuel cur k = Except.ok (some (st, kk)) →
      p st = true ∧ k ≤ kk ∧ (kk = k → st = cur) ∧
        (k < kk → s (kk - 1) = Except.ok st ∧ p cur = false ∧
          ∀ j, k ≤ j → j + 1 < kk → ∀ c, s j = Except.ok c → p c = false) := by
  intro fuel
  induction fuel with
  | zero =>
    intro cur k st kk h
    rw [waitLoop] at h
    by_cases hp : p cur = true
    · rw [if_pos hp] at h
      simp only [Except.ok.injEq, Option.some.injEq, Prod.mk.injEq] at h
      obtain ⟨rfl, rfl⟩ := h
      exact ⟨hp, le_rfl, fun _ => rfl, fun hlt => absurd hlt (lt_irrefl k)⟩
    · rw [if_neg hp] at h
      simp at h
  | succ fuel ih =>
    intro cur k st kk h
    rw [waitLoop] at h
    by_cases hp : p cur = true
    · rw [if_pos hp] at h
      simp only [Except.ok.injEq, Option.some.injEq, Prod.mk.injEq] at h
      obtain ⟨rfl, rfl⟩ := h
      exact ⟨hp, le_rfl, fun _ => rfl, fun hlt => absurd hlt (lt_irrefl k)⟩
    · rw [if_neg hp] at h
      have hpf : p cur = false := by
        simpa using hp
      cases hsk : s k with
      | error e => rw [hsk] at h; simp at h
      | ok st0 =>
        rw [hsk] at h
        simp only at h
        obtain ⟨hq, hle, heq, hlt⟩ := ih st0 (k + 1) st kk h
        refine ⟨hq, by omega, fun hk => absurd hk (by omega), fun _ => ⟨?_, hpf, ?_⟩⟩
        · by_cases hkk : kk = k + 1
          · have hst : st = st0 := heq hkk
            rw [hkk]
            simpa [hst] using hsk
          · exact (hlt (by omega)).1
        · intro j hj hjk c hc
          by_cases hje : j = k
          · subst hje
            have hc0 : c = st0 := by
              rw [hsk] at hc
              exact (Except.ok.inj hc).symm
            subst hc0
            exact (hlt (by omega)).2.1
          · exact (hlt (by omega)).2.2 j (by omega) hjk c hc

theorem waitLoop_complete (s : ℕ → Except Unit String) (p : String → Bool)
    (f : ℕ → String) (hs : ∀ n, s n = Except.ok (f n)) (m : ℕ)
    (hm : p (f m) = true) :
    ∀ (fuel : ℕ) (cur : String) (k : ℕ), (p cur = true ∨ k ≤ m) →
      m + 1 ≤ k + fuel →
      ∃ st kk, waitLoop s p fuel cur k = Except.ok (some (st, kk)) := by
  intro fuel
  induction fuel with
  | zero =>
    intro cur k hcase hfuel
    have hp : p cur = true := by
      rcases hcase with h | h
      · exact h
      · omega
    exact ⟨cur, k, by rw [waitLoop, if_pos hp]⟩
  | succ fuel ih =>
    intro cur k hcase hfuel
    by_cases hp : p cur = true
    · exact ⟨cur, k, by rw [waitLoop, if_pos hp]⟩
    · have hk : k ≤ m := by
        rcases hcase with h | h
        · exact absurd h hp
        · exact h
      have hrec : p (f k) = true ∨ k + 1 ≤ m := by
        by_cases hkm : k = m
        · left; rw [hkm]; exact hm
        · right; omega
      obtain ⟨st, kk, hst⟩ := ih (f k) (k + 1) hrec (by omega)
      refine ⟨st, kk, ?_⟩
      rw [waitLoop, if_neg hp, hs k]
      exact hst

theorem healthLoop_ok_some (h : ℕ → Except Unit Bool) :
    ∀ (fuel k kk : ℕ), healthLoop h fuel k = Except.ok (some kk) →
      k < kk ∧ h (kk - 1) = Except.ok true ∧
        ∀ j, k ≤ j → j + 1 < kk → h j = Except.ok false := by
  intro fuel
  induction fuel with
  | zero => intro k kk hh; simp [healthLoop] at hh
  | succ fuel ih =>
    intro k kk hh
    rw [healthLoop] at hh
    cases hk : h k with
    | error e => rw [hk] at hh; simp at hh
    | ok b =>
      rw [hk] at hh
      simp only at hh
      cases b with
      | true =>
        simp only [if_true] at hh
        have hkk : k + 1 = kk := by
          simpa using hh
        subst hkk
        refine ⟨by omega, by simpa using hk, ?_⟩
        intro j hj hjk
        omega
      | false =>
        simp only [Bool.false_eq_true, if_false] at hh
        obtain ⟨h1, h2, h3⟩ := ih (k + 1) kk hh
        refine ⟨by omega, h2, ?_⟩
        intro j hj hjk
        by_cases hje : j = k
        · subst hje; exact hk
        · exact h3 j (by omega) hjk

theorem healthLoop_complete (h : ℕ → Except Unit Bool) (g : ℕ → Bool)
    (hg : ∀ n, h n = Except.ok (g n)) (m : ℕ) (hm : g m = true) :
    ∀ (fuel k : ℕ), k ≤ m → m + 1 ≤ k + fuel →
      ∃ kk, healthLoop h fuel k = Except.ok (some kk) := by
  intro fuel
  induction fuel with
  | zero => intro k hk hf; omega
  | succ fuel ih =>
    intro k hk hf
    cases hgk : g k with
    | true =>
      refine ⟨k + 1, ?_⟩
      rw [healthLoop, hg k, hgk]
      simp
    | false =>
      have hne : k ≠ m := by
        intro he
        rw [he, hm] at hgk
        cases hgk
      obtain ⟨kk, hkk⟩ := ih (k + 1) (by omega) (by omega)
      refine ⟨kk, ?_⟩
      rw [healthLoop, hg k, hgk]
      simpa using hkk

theorem allocExit_of_startExit (st : String) (h : startExit st = true) :
    allocExit st = true := by
  simp only [startExit, Bool.or_eq_true, beq_iff_eq] at h
  rcases h with rfl | rfl <;> decide

theorem discoveryExit_of_allocExit (st : String) (h : allocExit st = true) :
    discoveryExit st = true := by
  simp only [allocExit, Bool.or_eq_true, beq_iff_eq] at h
  rcases h with (rfl | rfl) | rfl <;> decide

theorem eq_empty_of_not_discoveryExit (st : String) (h : discoveryExit st = false) :
    st = "" := by
  simpa [discoveryExit] using h

theorem runTry_raised_sandbox (env : Env) (region : String) (fuel : ℕ)
    (t : TimingTracker) (pub : List Sample) (sandbox : Bool) (i kd ka ks kh : ℕ)
    (h : runTry env region fuel = TryOut.raised t pub sandbox i kd ka ks kh) :
    sandbox = env.createOk := by
  unfold runTry at h
  by_cases hc : env.createOk = true
  · rw [if_pos hc] at h
    repeat' split at h
    all_goals simp_all
  · rw [if_neg hc] at h
    simp only [TryOut.raised.injEq] at h
    obtain ⟨-, -, hsb, -⟩ := h
    rw [← hsb]
    simp at hc
    rw [hc]

theorem runTry_finished_createOk (env : Env) (region : String) (fuel : ℕ)
    (t : TimingTracker) (pub : List Sample) (i kd ka ks kh : ℕ)
    (h : runTry env region fuel = TryOut.finished t pub i kd ka ks kh) :
    env.createOk = true := by
  by_cases hc : env.createOk = true
  · exact hc
  · unfold runTry at h
    rw [if_neg hc] at h
    simp at h

theorem runTry_createOk_false (env : Env) (region : String) (fuel : ℕ)
    (hc : env.createOk = false) :
    runTry env region fuel = TryOut.raised emptyTracker [] false 2 0 0 0 0 := by
  unfold runTry
  rw [if_neg]
  simp [hc]

theorem finishCycle_fields (env : Env) (region : String) (t : TimingTracker)
    (pub : List Sample) (sandbox caught : Bool) (i k2 k3 k4 kh : ℕ) :
    (finishCycle env region t pub sandbox caught i k2 k3 k4 kh).caught = caught
    ∧ (finishCycle env region t pub sandbox caught i k2 k3 k4 kh).escaped
        = (sandbox && !env.deleteOk)
    ∧ (finishCycle env region t pub sandbox caught i k2 k3 k4 kh).deleteCalls
        = (if sandbox then 1 else 0)
    ∧ (finishCycle env region t pub sandbox caught i k2 k3 k4 kh).createCalls = 1
    ∧ (caught = true → "✗ Error occurred"
        ∈ (finishCycle env region t pub sandbox caught i k2 k3 k4 kh).output) := by
  cases sandbox with
  | false => cases caught <;> simp [finishCycle]
  | true => cases hd : env.deleteOk <;> cases caught <;> simp [finishCycle, hd]

/-- C3: teardown is invoked exactly once per cycle when `Sandbox.create`
succeeded (also when a later phase raised) and zero times when the create
call itself failed; when the delete call returns, its duration is recorded
under category "cleanup" as the last tracker entry. -/
theorem c3_teardown_exactly_once (env : Env) (region : String) (fuel : ℕ)
    (r : MainResult) (htok : pyTruthy env.apiToken = true)
    (h : runMain env region fuel = some r) :
    r.deleteCalls = (if env.createOk then 1 else 0)
    ∧ (env.createOk = true → env.deleteOk = true →
        ∃ d ts, r.tracker.operations.getLast?
          = some ⟨"Sandbox deletion", d, "cleanup", ts⟩) := by
  rw [runMain, if_pos htok] at h
  cases hT : runTry env region fuel with
  | hang => rw [hT] at h; simp at h
  | raised t pub sandbox i kd ka ks kh =>
    rw [hT] at h
    have hsb : sandbox = env.createOk :=
      runTry_raised_sandbox env region fuel t pub sandbox i kd ka ks kh hT
    have hr : r = finishCycle env region t pub sandbox true i kd ka ks kh :=
      (Option.some.inj h).symm
    subst hr
    obtain ⟨-, -, hdel, -, -⟩ := finishCycle_fields env region t pub sandbox true i kd ka ks kh
    refine ⟨by rw [hdel, hsb], ?_⟩
    intro hco hdo
    have hsb2 : sandbox = true := by rw [hsb, hco]
    subst hsb2
    refine ⟨env.clock (i + 1) - env.clock i, env.clock (i + 2), ?_⟩
    simp [finishCycle, hdo, TimingTracker.record, List.getLast?_concat]
  | finished t pub i kd ka ks kh =>
    rw [hT] at h
    have hco : env.createOk = true :=
      runTry_finished_createOk env region fuel t pub i kd ka ks kh hT
    have hr : r = finishCycle env region t pub true false i kd ka ks kh :=
      (Option.some.inj h).symm
    subst hr
    obtain ⟨-, -, hdel, -, -⟩ := finishCycle_fields env region t pub true false i kd ka ks kh
    refine ⟨by rw [hdel, hco], ?_⟩
    intro _ hdo
    refine ⟨env.clock (i + 1) - env.clock i, env.clock (i + 2), ?_⟩
    simp [finishCycle, hdo, TimingTracker.record, List.getLast?_concat]

theorem c3_teardown_exactly_once_witness :
    mainResultGood.deleteCalls = (if envGood.createOk then 1 else 0)
    ∧ (envGood.createOk = true → envGood.deleteOk = true →
        ∃ d ts, mainResultGood.tracker.operations.getLast?
          = some ⟨"Sandbox deletion", d, "cleanup", ts⟩) :=
  c3_teardown_exactly_once envGood "fra" 10 mainResultGood rfl rfl

/-- C4 (amended): every error raised inside the `try` block of a cycle —
create, status-poll or health-probe failures — is caught by the
`except Exception` handler, logged, and does not escape `main`; but a
failure of the teardown `sandbox.delete()` call itself happens inside the
unprotected `finally` block, is not caught, and propagates out of the
cycle, so an escape can only be a teardown failure. -/
theorem c4_cycle_errors_caught_except_teardown (env : Env) (region : String)
    (fuel : ℕ) (r : MainResult) (h : runMain env region fuel = some r) :
    (env.deleteOk = true → r.escaped = false)
    ∧ (r.caught = true → "✗ Error occurred" ∈ r.output)
    ∧ (r.escaped = true → env.deleteOk = false ∧ r.deleteCalls = 1) := by
  rw [runMain] at h
  by_cases htok : pyTruthy env.apiToken = true
  · rw [if_pos htok] at h
    cases hT : runTry env region fuel with
    | hang => rw [hT] at h; simp at h
    | raised t pub sandbox i kd ka ks kh =>
      rw [hT] at h
      have hr : r = finishCycle env region t pub sandbox true i kd ka ks kh :=
        (Option.some.inj h).symm
      subst hr
      obtain ⟨hc, he, hd, -, ho⟩ :=
        finishCycle_fields env region t pub sandbox true i kd ka ks kh
      refine ⟨?_, fun _ => ho rfl, ?_⟩
      · intro hdo
        rw [he, hdo]
        simp
      · intro hesc
        rw [he] at hesc
        rw [hd]
        rcases Bool.and_eq_true_iff.1 hesc with ⟨hsb, hnd⟩
        refine ⟨by simpa using hnd, by simp [hsb]⟩
    | finished t pub i kd ka ks kh =>
      rw [hT] at h
      have hr : r = finishCycle env region t pub true false i kd ka ks kh :=
        (Option.some.inj h).symm
      subst hr
      obtain ⟨hc, he, hd, -, -⟩ :=
        finishCycle_fields env region t pub true false i kd ka ks kh
      refine ⟨?_, ?_, ?_⟩
      · intro hdo
        rw [he, hdo]
        simp
      · intro hct
        rw [hc] at hct
        cases hct
      · intro hesc
        rw [he] at hesc
        rw [hd]
        rcases Bool.and_eq_true_iff.1 hesc with ⟨-, hnd⟩
        refine ⟨by simpa using hnd, by simp⟩
  · rw [if_neg htok] at h
    have hr : r = _ := (Option.some.inj h).symm
    subst hr
    refine ⟨fun _ => rfl, ?_, ?_⟩
    · intro hct
      cases hct
    · intro hesc
      cases hesc

theorem c4_cycle_errors_caught_except_teardown_witness :
    (envGood.deleteOk = true → mainResultGood.escaped = false)
    ∧ (mainResultGood.caught = true → "✗ Error occurred" ∈ mainResultGood.output)
    ∧ (mainResultGood.escaped = true → envGood.deleteOk = false
        ∧ mainResultGood.deleteCalls = 1) :=
  c4_cycle_errors_caught_except_teardown envGood "fra" 10 mainResultGood rfl

/-- C4 counterexample: with a scripted cycle whose `sandbox.delete()`
raises, the exception escapes `main` uncaught (`escaped = true` while the
`except` handler never ran), and in the scheduler loop this terminates the
process: of three scheduled cycles only the first completes, the second
crashes the loop and the third never runs — the claim that errors,
including teardown failures, never propagate out of a cycle is false. -/
theorem c4_delete_failure_escapes :
    mainResultBadDelete.escaped = true
    ∧ mainResultBadDelete.caught = false
    ∧ runCycles "fra" 10 [envGood, envBadDelete, envGood] = (1, SchedEnd.crashed) :=
  ⟨rfl, rfl, rfl⟩

theorem monitorLoop_after_alloc (inst : ℕ → List String) (probe : ℕ → Except Unit ℕ)
    (a iexit : ℕ) (hp : probe iexit = Except.ok 200) :
    ∀ (fuel k : ℕ), k ≤ iexit →
      (∀ j, k ≤ j → j < iexit → probe j ≠ Except.ok 200) →
      iexit + 1 ≤ k + fuel →
      monitorLoop inst probe fuel (some a) k = some (some a, iexit) := by
  intro fuel
  induction fuel with
  | zero => intro k h1 h2 h3; omega
  | succ fuel ih =>
    intro k hk hmin hfuel
    by_cases hke : k = iexit
    · subst hke
      rw [monitorLoop]
      simp [hp]
    · have hne := hmin k le_rfl (by omega)
      cases hpk : probe k with
      | error e =>
        rw [monitorLoop]
        simp only [hpk]
        exact ih (k + 1) (by omega) (fun j hj hji => hmin j (by omega) hji) (by omega)
      | ok c =>
        have hc : (c == 200) = false := by
          rw [hpk] at hne
          simp only [beq_eq_false_iff_ne, ne_eq]
          intro hc200
          exact hne (by rw [hc200])
        rw [monitorLoop]
        simp only [hpk, hc]
        exact ih (k + 1) (by omega) (fun j hj hji => hmin j (by omega) hji) (by omega)

/-- C8: in the readiness polling loop of `measure_deployment`, a raised
probe exception (`requests.RequestException`, i.e. a network error) is not
fatal to the cycle: the `except` clause swallows it, the iteration counts
as "not ready yet", and the loop continues until the first iteration whose
probe returns HTTP 200 — the hypotheses allow any prefix of probe results
to be errors (or non-200 codes), and the loop still breaks exactly at the
first 200 reply instead of aborting. -/
theorem c8_probe_failure_not_fatal (inst : ℕ → List String)
    (probe : ℕ → Except Unit ℕ) (fuel iexit : ℕ)
    (halloc : monitorAllocExit (inst 0) = true)
    (hp : probe iexit = Except.ok 200)
    (hbefore : ∀ j, j < iexit → probe j ≠ Except.ok 200)
    (hfuel : iexit + 1 ≤ fuel) :
    monitorLoop inst probe fuel none 0 = some (some 0, iexit) := by
  cases fuel with
  | zero => omega
  | succ fuel =>
    by_cases h0 : iexit = 0
    · subst h0
      rw [monitorLoop]
      simp [halloc, hp]
    · have hne := hbefore 0 (by omega)
      rw [monitorLoop]
      cases hp0 : probe 0 with
      | error e =>
        simp only [halloc, if_true, hp0]
        exact monitorLoop_after_alloc inst probe 0 iexit hp fuel 1 (by omega)
          (fun j hj hji => hbefore j hji) (by omega)
      | ok c =>
        have hc : (c == 200) = false := by
          rw [hp0] at hne
          simp only [beq_eq_false_iff_ne, ne_eq]
          intro hc200
          exact hne (by rw [hc200])
        simp only [halloc, if_true, hp0, hc]
        exact monitorLoop_after_alloc inst probe 0 iexit hp fuel 1 (by omega)
          (fun j hj hji => hbefore j hji) (by omega)

theorem c8_probe_failure_not_fatal_witness :
    monitorLoop monInst monProbe 2 none 0 = some (some 0, 1) :=
  c8_probe_failure_not_fatal monInst monProbe 2 1 rfl rfl
    (by
      intro j hj
      have hj0 : j = 0 := by omega
      subst hj0
      simp [monProbe])
    (by omega)

theorem runTry_finished_of (env : Env) (region : String) (fuel : ℕ)
    (st2 st3 st4 : String) (k2 k3 k4 kh : ℕ)
    (hc : env.createOk = true)
    (h2 : waitLoop env.status discoveryExit fuel "" 0 = Except.ok (some (st2, k2)))
    (h3 : waitLoop env.status allocExit fuel st2 k2 = Except.ok (some (st3, k3)))
    (h4 : waitLoop env.status startExit fuel st3 k3 = Except.ok (some (st4, k4)))
    (h5 : healthLoop env.isHealthy fuel 0 = Except.ok (some kh)) :
    runTry env region fuel = TryOut.finished (cycleRecords env region).1
      (cycleRecords env region).2 16 k2 k3 k4 kh := by
  simp only [runTry, hc, if_true, h2, h3, h4, h5]
  rfl

theorem cycleRecords_operations (env : Env) (region : String) :
    (cycleRecords env region).1.operations =
      [⟨"Sandbox creation", env.clock 2 - env.clock 1, "setup", env.clock 3⟩,
       ⟨"instance creation", env.clock 5 - env.clock 4, "setup", env.clock 6⟩,
       ⟨"instance allocation", env.clock 8 - env.clock 7, "setup", env.clock 9⟩,
       ⟨"instance starting", env.clock 11 - env.clock 10, "setup", env.clock 12⟩,
       ⟨"Health check", env.clock 14 - env.clock 13, "monitoring", env.clock 15⟩] := by
  simp [cycleRecords, TimingTracker.record, TimingTracker.record_total_time, emptyTracker]

/-- C2: for a cycle whose token is set, whose create and delete calls
succeed, whose status stream is eventually non-empty, eventually in the
allocation set, eventually in the starting set, and whose health probe is
eventually true, `main` completes and records exactly one measurement per
phase of the five-phase table, in order, the first four under category
"setup" and the readiness check under "monitoring" (plus the teardown
record), each with non-negative duration under a monotone clock; and each
polling phase exits exactly at the first observation, at or after the
previous phase's exit observation, satisfying its exit predicate. -/
theorem c2_cycle_phase_measurements (env : Env) (region : String) (fuel : ℕ)
    (f : ℕ → String) (g : ℕ → Bool) (m1 m2 m3 m4 : ℕ)
    (htok : pyTruthy env.apiToken = true)
    (hcreate : env.createOk = true)
    (hdelete : env.deleteOk = true)
    (hs : ∀ n, env.status n = Except.ok (f n))
    (hg : ∀ n, env.isHealthy n = Except.ok (g n))
    (hclock : Monotone env.clock)
    (hm1 : discoveryExit (f m1) = true)
    (hm2 : allocExit (f m2) = true)
    (hm3 : startExit (f m3) = true)
    (hm4 : g m4 = true)
    (hfuel : m1 + m2 + m3 + m4 + 2 ≤ fuel) :
    ∃ r, runMain env region fuel = some r
      ∧ r.tracker.operations.map (fun op => (op.name, op.category))
          = [("Sandbox creation", "setup"), ("instance creation", "setup"),
             ("instance allocation", "setup"), ("instance starting", "setup"),
             ("Health check", "monitoring"), ("Sandbox deletion", "cleanup")]
      ∧ (∀ op ∈ r.tracker.operations, 0 ≤ op.duration)
      ∧ 1 ≤ r.statusCallsDiscovery
      ∧ r.statusCallsDiscovery ≤ r.statusCallsAlloc
      ∧ r.statusCallsAlloc ≤ r.statusCallsStart
      ∧ 1 ≤ r.healthCalls
      ∧ discoveryExit (f (r.statusCallsDiscovery - 1)) = true
      ∧ (∀ j, j < r.statusCallsDiscovery - 1 → f j = "")
      ∧ allocExit (f (r.statusCallsAlloc - 1)) = true
      ∧ (∀ j, r.statusCallsDiscovery - 1 ≤ j → j < r.statusCallsAlloc - 1 →
          allocExit (f j) = false)
      ∧ startExit (f (r.statusCallsStart - 1)) = true
      ∧ (∀ j, r.statusCallsAlloc - 1 ≤ j → j < r.statusCallsStart - 1 →
          startExit (f j) = false)
      ∧ g (r.healthCalls - 1) = true
      ∧ (∀ j, j < r.healthCalls - 1 → g j = false) := by
  obtain ⟨st2, k2, h2⟩ :=
    waitLoop_complete env.status discoveryExit f hs m1 hm1 fuel "" 0
      (Or.inr (Nat.zero_le m1)) (by omega)
  obtain ⟨hp2, hk2le, hk2eq, hk2lt⟩ :=
    waitLoop_ok_some env.status discoveryExit fuel "" 0 st2 k2 h2
  have hk2pos : 0 < k2 := by
    rcases Nat.eq_zero_or_pos k2 with h0 | h0
    · have hst : st2 = "" := hk2eq h0
      rw [hst] at hp2
      exact absurd hp2 (by decide)
    · exact h0
  have hf2 : f (k2 - 1) = st2 := by
    have ho := (hk2lt hk2pos).1
    rw [hs (k2 - 1)] at ho
    exact Except.ok.inj ho
  have hleast2 : ∀ j, j < k2 - 1 → f j = "" := by
    intro j hj
    have hpf := (hk2lt hk2pos).2.2 j (Nat.zero_le j) (by omega) (f j) (hs j)
    exact eq_empty_of_not_discoveryExit (f j) hpf
  have hk2m : k2 ≤ m1 + 1 := by
    by_contra hgt
    push_neg at hgt
    have he := hleast2 m1 (by omega)
    rw [he] at hm1
    exact absurd hm1 (by decide)
  have hm2ge : k2 - 1 ≤ m2 := by
    by_contra hlt2
    push_neg at hlt2
    have he := hleast2 m2 (by omega)
    rw [he] at hm2
    exact absurd hm2 (by decide)
  have hcase3 : allocExit st2 = true ∨ k2 ≤ m2 := by
    by_cases he : k2 - 1 = m2
    · left
      rw [← hf2, he]
      exact hm2
    · right
      omega
  obtain ⟨st3, k3, h3⟩ :=
    waitLoop_complete env.status allocExit f hs m2 hm2 fuel st2 k2 hcase3 (by omega)
  obtain ⟨hp3, hk3le, hk3eq, hk3lt⟩ :=
    waitLoop_ok_some env.status allocExit fuel st2 k2 st3 k3 h3
  have hf3 : f (k3 - 1) = st3 := by
    by_cases he : k3 = k2
    · rw [hk3eq he, he, hf2]
    · have hlt : k2 < k3 := by omega
      have ho := (hk3lt hlt).1
      rw [hs (k3 - 1)] at ho
      exact Except.ok.inj ho
  have hleast3 : ∀ j, k2 - 1 ≤ j → j < k3 - 1 → allocExit (f j) = false := by
    intro j hj1 hj2
    by_cases he : k3 = k2
    · omega
    · have hlt : k2 < k3 := by omega
      by_cases hje : j = k2 - 1
      · rw [hje, hf2]
        exact (hk3lt hlt).2.1
      · exact (hk3lt hlt).2.2 j (by omega) (by omega) (f j) (hs j)
  have hm3ge : k3 - 1 ≤ m3 := by
    by_contra hlt3
    push_neg at hlt3
    have ha3 := allocExit_of_startExit (f m3) hm3
    have hm3ge2 : k2 - 1 ≤ m3 := by
      by_contra hlt2a
      push_neg at hlt2a
      have he := hleast2 m3 (by omega)
      rw [he] at ha3
      exact absurd ha3 (by decide)
    have he := hleast3 m3 hm3ge2 (by omega)
    rw [ha3] at he
    exact absurd he (by decide)
  have hcase4 : startExit st3 = true ∨ k3 ≤ m3 := by
    by_cases he : k3 - 1 = m3
    · left
      rw [← hf3, he]
      exact hm3
    · right
      omega
  obtain ⟨st4, k4, h4⟩ :=
    waitLoop_complete env.status startExit f hs m3 hm3 fuel st3 k3 hcase4 (by omega)
  obtain ⟨hp4, hk4le, hk4eq, hk4lt⟩ :=
    waitLoop_ok_some env.status startExit fuel st3 k3 st4 k4 h4
  have hf4 : f (k4 - 1) = st4 := by
    by_cases he : k4 = k3
    · rw [hk4eq he, he, hf3]
    · have hlt : k3 < k4 := by omega
      have ho := (hk4lt hlt).1
      rw [hs (k4 - 1)] at ho
      exact Except.ok.inj ho
  have hleast4 : ∀ j, k3 - 1 ≤ j → j < k4 - 1 → startExit (f j) = false := by
    intro j hj1 hj2
    by_cases he : k4 = k3
    · omega
    · have hlt : k3 < k4 := by omega
      by_cases hje : j = k3 - 1
      · rw [hje, hf3]
        exact (hk4lt hlt).2.1
      · exact (hk4lt hlt).2.2 j (by omega) (by omega) (f j) (hs j)
  obtain ⟨kh, h5⟩ :=
    healthLoop_complete env.isHealthy g hg m4 hm4 fuel 0 (Nat.zero_le m4) (by omega)
  obtain ⟨hkh, hgh, hgleast⟩ := healthLoop_ok_some env.isHealthy fuel 0 kh h5
  have hg1 : g (kh - 1) = true := by
    rw [hg (kh - 1)] at hgh
    exact Except.ok.inj hgh
  have hgl : ∀ j, j < kh - 1 → g j = false := by
    intro j hj
    have hjf := hgleast j (Nat.zero_le j) (by omega)
    rw [hg j] at hjf
    exact Except.ok.inj hjf
  have hT := runTry_finished_of env region fuel st2 st3 st4 k2 k3 k4 kh hcreate h2 h3 h4 h5
  set T := (cycleRecords env region).1 with hTdef
  set P := (cycleRecords env region).2 with hPdef
  have hTops := cycleRecords_operations env region
  rw [← hTdef] at hTops
  have hrm : runMain env region fuel
      = some (finishCycle env region T P true false 16 k2 k3 k4 kh) := by
    rw [runMain, if_pos htok, hT]
  have hrops : (finishCycle env region T P true false 16 k2 k3 k4 kh).tracker.operations
      = T.operations
        ++ [⟨"Sandbox deletion", env.clock 17 - env.clock 16, "cleanup", env.clock 18⟩] := by
    simp [finishCycle, hdelete, TimingTracker.record]
  have hrkd : (finishCycle env region T P true false 16 k2 k3 k4 kh).statusCallsDiscovery
      = k2 := by
    simp [finishCycle, hdelete]
  have hrka : (finishCycle env region T P true false 16 k2 k3 k4 kh).statusCallsAlloc
      = k3 := by
    simp [finishCycle, hdelete]
  have hrks : (finishCycle env region T P true false 16 k2 k3 k4 kh).statusCallsStart
      = k4 := by
    simp [finishCycle, hdelete]
  have hrkh : (finishCycle env region T P true false 16 k2 k3 k4 kh).healthCalls = kh := by
    simp [finishCycle, hdelete]
  refine ⟨finishCycle env region T P true false 16 k2 k3 k4 kh, hrm,
    ?_, ?_, ?_, ?_, ?_, ?_, ?_, ?_, ?_, ?_, ?_, ?_, ?_, ?_⟩
  · rw [hrops, hTops]
    rfl
  · intro op hop
    rw [hrops, hTops] at hop
    simp only [List.mem_append, List.mem_cons, List.not_mem_nil, or_false] at hop
    rcases hop with (rfl | rfl | rfl | rfl | rfl) | rfl <;>
      exact sub_nonneg.mpr (hclock (by norm_num))
  · rw [hrkd]
    exact hk2pos
  · rw [hrkd, hrka]
    exact hk3le
  · rw [hrka, hrks]
    exact hk4le
  · rw [hrkh]
    exact hkh
  · rw [hrkd, hf2]
    exact hp2
  · rw [hrkd]
    exact hleast2
  · rw [hrka, hf3]
    exact hp3
  · rw [hrkd, hrka]
    exact hleast3
  · rw [hrks, hf4]
    exact hp4
  · rw [hrka, hrks]
    exact hleast4
  · rw [hrkh]
    exact hg1
  · rw [hrkh]
    exact hgl

theorem c2_cycle_phase_measurements_witness :
    ∃ r, runMain envGood "fra" 10 = some r
      ∧ r.tracker.operations.map (fun op => (op.name, op.category))
          = [("Sandbox creation", "setup"), ("instance creation", "setup"),
             ("instance allocation", "setup"), ("instance starting", "setup"),
             ("Health check", "monitoring"), ("Sandbox deletion", "cleanup")]
      ∧ (∀ op ∈ r.tracker.operations, 0 ≤ op.duration)
      ∧ 1 ≤ r.statusCallsDiscovery
      ∧ r.statusCallsDiscovery ≤ r.statusCallsAlloc
      ∧ r.statusCallsAlloc ≤ r.statusCallsStart
      ∧ 1 ≤ r.healthCalls
      ∧ discoveryExit (goodStatus (r.statusCallsDiscovery - 1)) = true
      ∧ (∀ j, j < r.statusCallsDiscovery - 1 → goodStatus j = "")
      ∧ allocExit (goodStatus (r.statusCallsAlloc - 1)) = true
      ∧ (∀ j, r.statusCallsDiscovery - 1 ≤ j → j < r.statusCallsAlloc - 1 →
          allocExit (goodStatus j) = false)
      ∧ startExit (goodStatus (r.statusCallsStart - 1)) = true
      ∧ (∀ j, r.statusCallsAlloc - 1 ≤ j → j < r.statusCallsStart - 1 →
          startExit (goodStatus j) = false)
      ∧ goodHealth (r.healthCalls - 1) = true
      ∧ (∀ j, j < r.healthCalls - 1 → goodHealth j = false) :=
  c2_cycle_phase_measurements envGood "fra" 10 goodStatus goodHealth 1 1 2 1
    rfl rfl rfl (fun _ => rfl) (fun _ => rfl)
    (by
      intro a b hab
      show ((a : ℚ) ≤ (b : ℚ))
      exact_mod_cast hab)
    (by decide) (by decide) (by decide) (by decide) (by norm_num)
